import Mathlib

/-!
# ISO 8583 socket server: the connection handler and its field table

A shallow embedding of `handleConnection` (src/main.go): the field table it
builds, the framing of one request/response cycle over the buffered reader,
the response rule, and the response frame it writes.  Bytes are natural
numbers below 256; byte strings are lists of them.
-/

namespace Iso8583

/-- A byte string: Go `[]byte` and `string` values, each element below 256. -/
abbrev Bytes := List Nat

/-! ## The field table (main.go lines 22-435) -/

/-- Constructor used for a table entry: `field.NewString`, `field.NewNumeric`, `field.NewBitmap`. -/
inductive FieldKind where
  | string
  | numeric
  | bitmap
  deriving DecidableEq, Repr

/-- The `Enc` values used by the table: `encoding.ASCII`, `encoding.BytesToASCIIHex`. -/
inductive Encoding where
  | ascii
  | bytesToASCIIHex
  deriving DecidableEq, Repr

/-- The `Pref` values used by the table: `prefix.ASCII.Fixed`, `prefix.Hex.Fixed`,
`prefix.ASCII.LL`, `prefix.ASCII.LLL`. -/
inductive Prefix where
  | asciiFixed
  | hexFixed
  | asciiLL
  | asciiLLL
  deriving DecidableEq, Repr

/-- One `field.Spec` literal: `Length`, `Description`, `Enc`, `Pref`, and `Pad`
(`some c` for `padding.Left(c)`, so `some 48` is `padding.Left('0')`; `none` when the
literal sets no `Pad`). -/
structure Spec where
  length : Nat
  description : String
  enc : Encoding
  pref : Prefix
  pad : Option Nat
  deriving DecidableEq, Repr

/-- A table entry: the constructor that built it and its `field.Spec`. -/
structure Field where
  kind : FieldKind
  spec : Spec
  deriving DecidableEq, Repr

/-- Embedding of `field.NewString(&field.Spec{...})`. -/
def NewString (s : Spec) : Field := Field.mk FieldKind.string s

/-- Embedding of `field.NewNumeric(&field.Spec{...})`. -/
def NewNumeric (s : Spec) : Field := Field.mk FieldKind.numeric s

/-- Embedding of `field.NewBitmap(&field.Spec{...})`. -/
def NewBitmap (s : Spec) : Field := Field.mk FieldKind.bitmap s

/-- The `Fields` map literal of `spec`, entry by entry in source order. -/
def specFields : List (Nat × Field) := [
  (0, NewString (Spec.mk 4 "Message Type Indicator" Encoding.ascii Prefix.asciiFixed none)),
  (1, NewBitmap (Spec.mk 8 "Bitmap" Encoding.bytesToASCIIHex Prefix.hexFixed none)),
  (2, NewString (Spec.mk 19 "Primary Account Number" Encoding.ascii Prefix.asciiLL none)),
  (3, NewNumeric (Spec.mk 6 "Processing Code" Encoding.ascii Prefix.asciiFixed none)),
  (4, NewString (Spec.mk 12 "Transaction Amount" Encoding.ascii Prefix.asciiFixed (some 48))),
  (5, NewString (Spec.mk 12 "Settlement Amount" Encoding.ascii Prefix.asciiFixed (some 48))),
  (6, NewString (Spec.mk 12 "Billing Amount" Encoding.ascii Prefix.asciiFixed (some 48))),
  (7, NewString (Spec.mk 10 "Transmission Date & Time" Encoding.ascii Prefix.asciiFixed none)),
  (8, NewString (Spec.mk 8 "Billing Fee Amount" Encoding.ascii Prefix.asciiFixed none)),
  (9, NewString (Spec.mk 8 "Settlement Conversion Rate" Encoding.ascii Prefix.asciiFixed none)),
  (10, NewString (Spec.mk 8 "Cardholder Billing Conversion Rate" Encoding.ascii Prefix.asciiFixed none)),
  (11, NewString (Spec.mk 6 "Systems Trace Audit Number (STAN)" Encoding.ascii Prefix.asciiFixed none)),
  (12, NewString (Spec.mk 6 "Local Transaction Time" Encoding.ascii Prefix.asciiFixed none)),
  (13, NewString (Spec.mk 4 "Local Transaction Date" Encoding.ascii Prefix.asciiFixed none)),
  (14, NewString (Spec.mk 4 "Expiration Date" Encoding.ascii Prefix.asciiFixed none)),
  (15, NewString (Spec.mk 4 "Settlement Date" Encoding.ascii Prefix.asciiFixed none)),
  (16, NewString (Spec.mk 4 "Currency Conversion Date" Encoding.ascii Prefix.asciiFixed none)),
  (17, NewString (Spec.mk 4 "Capture Date" Encoding.ascii Prefix.asciiFixed none)),
  (18, NewString (Spec.mk 4 "Merchant Type" Encoding.ascii Prefix.asciiFixed none)),
  (19, NewString (Spec.mk 3 "Acquiring Institution Country Code" Encoding.ascii Prefix.asciiFixed none)),
  (20, NewString (Spec.mk 3 "PAN Extended Country Code" Encoding.ascii Prefix.asciiFixed none)),
  (21, NewString (Spec.mk 3 "Forwarding Institution Country Code" Encoding.ascii Prefix.asciiFixed none)),
  (22, NewString (Spec.mk 3 "Point of Sale (POS) Entry Mode" Encoding.ascii Prefix.asciiFixed none)),
  (23, NewString (Spec.mk 3 "Card Sequence Number (CSN)" Encoding.ascii Prefix.asciiFixed none)),
  (24, NewString (Spec.mk 3 "Function Code" Encoding.ascii Prefix.asciiFixed none)),
  (25, NewString (Spec.mk 2 "Point of Service Condition Code" Encoding.ascii Prefix.asciiFixed none)),
  (26, NewString (Spec.mk 2 "Point of Service PIN Capture Code" Encoding.ascii Prefix.asciiFixed none)),
  (27, NewString (Spec.mk 1 "Authorizing Identification Response Length" Encoding.ascii Prefix.asciiFixed none)),
  (28, NewString (Spec.mk 9 "Transaction Fee Amount" Encoding.ascii Prefix.asciiFixed none)),
  (29, NewString (Spec.mk 9 "Settlement Fee Amount" Encoding.ascii Prefix.asciiFixed none)),
  (30, NewString (Spec.mk 9 "Transaction Processing Fee Amount" Encoding.ascii Prefix.asciiFixed none)),
  (31, NewString (Spec.mk 9 "Settlement Processing Fee Amount" Encoding.ascii Prefix.asciiFixed none)),
  (32, NewString (Spec.mk 11 "Acquiring Institution Identification Code" Encoding.ascii Prefix.asciiLL none)),
  (33, NewString (Spec.mk 11 "Forwarding Institution Identification Code" Encoding.ascii Prefix.asciiLL none)),
  (34, NewString (Spec.mk 28 "Extended Primary Account Number" Encoding.ascii Prefix.asciiLL none)),
  (35, NewString (Spec.mk 37 "Track 2 Data" Encoding.ascii Prefix.asciiLL none)),
  (36, NewString (Spec.mk 104 "Track 3 Data" Encoding.ascii Prefix.asciiLLL none)),
  (37, NewString (Spec.mk 12 "Retrieval Reference Number" Encoding.ascii Prefix.asciiFixed none)),
  (38, NewString (Spec.mk 6 "Authorization Identification Response" Encoding.ascii Prefix.asciiFixed none)),
  (39, NewString (Spec.mk 2 "Response Code" Encoding.ascii Prefix.asciiFixed none)),
  (40, NewString (Spec.mk 3 "Service Restriction Code" Encoding.ascii Prefix.asciiFixed none)),
  (41, NewString (Spec.mk 8 "Card Acceptor Terminal Identification" Encoding.ascii Prefix.asciiFixed none)),
  (42, NewString (Spec.mk 15 "Card Acceptor Identification Code" Encoding.ascii Prefix.asciiFixed none)),
  (43, NewString (Spec.mk 40 "Card Acceptor Name/Location" Encoding.ascii Prefix.asciiFixed none)),
  (44, NewString (Spec.mk 99 "Additional Data" Encoding.ascii Prefix.asciiLL none)),
  (45, NewString (Spec.mk 76 "Track 1 Data" Encoding.ascii Prefix.asciiLL none)),
  (46, NewString (Spec.mk 999 "Additional data (ISO)" Encoding.ascii Prefix.asciiLLL none)),
  (47, NewString (Spec.mk 999 "Additional data (National)" Encoding.ascii Prefix.asciiLLL none)),
  (48, NewString (Spec.mk 999 "Additional data (Private)" Encoding.ascii Prefix.asciiLLL none)),
  (49, NewString (Spec.mk 3 "Transaction Currency Code" Encoding.ascii Prefix.asciiFixed none)),
  (50, NewString (Spec.mk 3 "Settlement Currency Code" Encoding.ascii Prefix.asciiFixed none)),
  (51, NewString (Spec.mk 3 "Cardholder Billing Currency Code" Encoding.ascii Prefix.asciiFixed none)),
  (52, NewString (Spec.mk 16 "PIN Data" Encoding.ascii Prefix.asciiFixed none)),
  (53, NewString (Spec.mk 16 "Security Related Control Information" Encoding.ascii Prefix.asciiFixed none)),
  (54, NewString (Spec.mk 120 "Additional Amounts" Encoding.ascii Prefix.asciiLLL none)),
  (55, NewString (Spec.mk 999 "ICC Data – EMV Having Multiple Tags" Encoding.ascii Prefix.asciiLLL none)),
  (56, NewString (Spec.mk 999 "Reserved (ISO)" Encoding.ascii Prefix.asciiLLL none)),
  (57, NewString (Spec.mk 999 "Reserved (National)" Encoding.ascii Prefix.asciiLLL none)),
  (58, NewString (Spec.mk 999 "Reserved (National)" Encoding.ascii Prefix.asciiLLL none)),
  (59, NewString (Spec.mk 999 "Reserved (National)" Encoding.ascii Prefix.asciiLLL none)),
  (60, NewString (Spec.mk 999 "Reserved (National)" Encoding.ascii Prefix.asciiLLL none)),
  (61, NewString (Spec.mk 999 "Reserved (Private)" Encoding.ascii Prefix.asciiLLL none)),
  (62, NewString (Spec.mk 999 "Reserved (Private)" Encoding.ascii Prefix.asciiLLL none)),
  (63, NewString (Spec.mk 999 "Reserved (Private)" Encoding.ascii Prefix.asciiLLL none)),
  (64, NewString (Spec.mk 8 "Message Authentication Code (MAC)" Encoding.bytesToASCIIHex Prefix.hexFixed none)),
  (70, NewString (Spec.mk 3 "Network management information code" Encoding.ascii Prefix.asciiFixed none)),
  (90, NewString (Spec.mk 42 "Original Data Elements" Encoding.ascii Prefix.asciiFixed none))
]

/-- Lookup in the `Fields` map. -/
def fieldOf (n : Nat) : Option Field := specFields.lookup n

/-- The field numbers registered in the table. -/
def fieldNumbers : List Nat := specFields.map Prod.fst

/-- A prefix scheme is fixed when it writes no length digits. -/
def Prefix.isFixed : Prefix → Bool
  | .asciiFixed => true
  | .hexFixed => true
  | .asciiLL => false
  | .asciiLLL => false

/-- A prefix scheme is variable-length when it is `LL` or `LLL`. -/
def Prefix.isVariable : Prefix → Bool
  | .asciiLL => true
  | .asciiLLL => true
  | .asciiFixed => false
  | .hexFixed => false

/-! ## The message container used by the handler -/

/-- Modelled from the spec: the `Message` container of the imported codec package, which
is not part of the source file.  §3 and §4.4 describe it as a mapping from present field
number to value with direct accessors; field 0 holds the Message Type Indicator and the
bitmap (field 1) is not part of the visible set. -/
structure Message where
  fields : Nat → Option Bytes

/-- Modelled from the spec: `NewMessage(spec)`, a message with no field present. -/
def NewMessage : Message := Message.mk (fun _ => none)

/-- Modelled from the spec: recording value `v` under field number `n` in the mapping. -/
def Message.set (m : Message) (n : Nat) (v : Bytes) : Message :=
  Message.mk (fun k => if k = n then some v else m.fields k)

/-- Modelled from the spec: `GetField(number) → (value, present)` (§4.4). -/
def Message.GetField (m : Message) (n : Nat) : Option Bytes := m.fields n

/-- Modelled from the spec: `SetField(number, value)` (§4.4), the call `msg.Field(n, v)` of
the handler.  A field can be written only when the table registers it (§3); otherwise the
call returns an error, which the handler drops, and the message is unchanged. -/
def Message.Field (m : Message) (n : Nat) (v : Bytes) : Message :=
  if (fieldOf n).isSome then m.set n v else m

/-- Modelled from the spec: `GetMTI()` (§4.4); the handler drops its error result, so an
absent indicator reads as the empty string. -/
def Message.GetMTI (m : Message) : Bytes := (m.fields 0).getD []

/-- Modelled from the spec: `SetMTI(value)` (§4.4), the call `msg.MTI(v)` of the handler. -/
def Message.MTI (m : Message) (v : Bytes) : Message := m.Field 0 v

/-- The two codec entry points the handler calls, taken as parameters: `Unpack` on a fresh
`NewMessage(spec)` gives the message as the call left it and whether it returned an
error; `Pack` gives the bytes returned and whether it returned an error. -/
structure Codec where
  Unpack : Bytes → Message × Bool
  Pack : Message → Bytes × Bool

/-! ## The buffered reader over the connection (main.go lines 438, 460, 471) -/

/-- State of `bufio.NewReader(conn)`: the bytes buffered and not yet handed out, and the
connection as the list of byte groups its successive `Read` calls will deliver before end
of stream. -/
structure Reader where
  buf : Bytes
  conn : List Bytes
  deriving DecidableEq, Repr

/-- Size of the buffer of `bufio.NewReader`. -/
def defaultBufSize : Nat := 4096

/-- One `Read` of the connection into a slice of `cap` bytes: an error at end of stream,
otherwise at most `cap` bytes of the group that has arrived. -/
def connRead (conn : List Bytes) (cap : Nat) : Option (Bytes × List Bytes) :=
  match conn with
  | [] => none
  | c :: rest => if c.length ≤ cap then some (c, rest) else some (c.take cap, c.drop cap :: rest)

/-- The standard library's `(*bufio.Reader).Read(p)` with `len(p) = n`: the bytes copied into
`p`, whether an error is returned, and the reader afterwards.  The bytes come from the
buffer when it is not empty, otherwise from at most one `Read` of the connection, so
fewer than `n` bytes can be returned without an error. -/
def Reader.Read (r : Reader) (n : Nat) : Bytes × Bool × Reader :=
  if n = 0 then ([], false, r)
  else if r.buf.isEmpty then
    if defaultBufSize ≤ n then
      match connRead r.conn n with
      | none => ([], true, r)
      | some (d, conn2) => (d, false, Reader.mk [] conn2)
    else
      match connRead r.conn defaultBufSize with
      | none => ([], true, r)
      | some (d, conn2) =>
        if d.isEmpty then ([], false, Reader.mk [] conn2)
        else (d.take n, false, Reader.mk (d.drop n) conn2)
  else (r.buf.take n, false, Reader.mk (r.buf.drop n) r.conn)

/-- The slice `make([]byte, n)` after `Read` copied `d` into its front. -/
def filled (n : Nat) (d : Bytes) : Bytes := d ++ List.replicate (n - d.length) 0

/-- Lines 459-475: read the header, compute `bodyLength`, read the body.  `none` is the
`return` taken on a read error; otherwise the body slice and the reader afterwards. -/
def readFrame (r : Reader) : Option (Bytes × Reader) :=
  let h := r.Read 2
  if h.2.1 then none
  else
    let header := filled 2 h.1
    let bodyLength := (header.getD 0 0 <<< 8) ||| header.getD 1 0
    let b := h.2.2.Read bodyLength
    if b.2.1 then none
    else some (filled bodyLength b.1, b.2.2)

/-! ## The response rule and the response frame (main.go lines 487-529) -/

/-- The string "0800". -/
def mti0800 : Bytes := [48, 56, 48, 48]

/-- The string "0810". -/
def mti0810 : Bytes := [48, 56, 49, 48]

/-- The string "0200". -/
def mti0200 : Bytes := [48, 50, 48, 48]

/-- The string "0210". -/
def mti0210 : Bytes := [48, 50, 49, 48]

/-- The string "00". -/
def rc00 : Bytes := [48, 48]

/-- Lines 487-497: `none` is the `continue` taken for an MTI that is neither "0800" nor
"0200"; otherwise the message handed to `Pack`. -/
def responseRule (msgProsw : Message) : Option Message :=
  let mti := msgProsw.GetMTI
  if mti = mti0800 then some ((msgProsw.MTI mti0810).Field 39 rc00)
  else if mti = mti0200 then some ((msgProsw.MTI mti0210).Field 39 rc00)
  else none

/-- Line 517: `responseLength := len(responseString) + 2`. -/
def responseLength (response : Bytes) : Nat := response.length + 2

/-- The conversion `uint16(x)` of a non-negative `int`. -/
def uint16 (x : Nat) : Nat := x % 65536

/-- The call `binary.Write(buf, binary.BigEndian, v)` for a `uint16` value on an empty
`bytes.Buffer`: the buffer's bytes afterwards.  Writing a fixed-size value to a
`bytes.Buffer` returns no error. -/
def binaryWriteBigEndian (v : Nat) : Except String Bytes :=
  Except.ok [v / 256 % 256, v % 256]

/-- Lines 515-529: the bytes written to the connection for `response`, or `none` for the
`return` taken when `binary.Write` reports an error. -/
def writeResponse (response : Bytes) : Option Bytes :=
  match binaryWriteBigEndian (uint16 (responseLength response)) with
  | Except.error _ => none
  | Except.ok buf => some (buf ++ response)

/-- Outcome of one pass through the body of the `for` loop: `stop` is a `return`, `next`
carries the reader for the next pass and the bytes written to the connection in this one. -/
inductive Cycle where
  | stop
  | next (r : Reader) (written : Bytes)

/-- One pass through the body of the `for` loop of `handleConnection` (lines 459-529).  The
error results of `Unpack`, `GetMTI`, `Field` and `Pack` are dropped, as in the source. -/
def handleCycle (c : Codec) (r : Reader) : Cycle :=
  match readFrame r with
  | none => Cycle.stop
  | some (body, r2) =>
    let msgProsw := (c.Unpack body).1
    match responseRule msgProsw with
    | none => Cycle.next r2 []
    | some m =>
      let response := (c.Pack m).1
      match writeResponse response with
      | none => Cycle.stop
      | some out => Cycle.next r2 out

/-- The `for` loop of `handleConnection`, run for at most `fuel` passes: everything written
to the connection. -/
def handleConnection (c : Codec) : Nat → Reader → Bytes
  | 0, _ => []
  | fuel + 1, r =>
    match handleCycle c r with
    | Cycle.stop => []
    | Cycle.next r2 written => written ++ handleConnection c fuel r2

/-! ## The codec the handler imports

The codec package (`github.com/moov-io/iso8583`) is not part of the source file.  The
message-level definitions of this section follow the specification's description of it
(§3, §4.1-§4.4); the field-level ones follow what the package does with the three field
constructors the table uses, where that differs from the description: the ASCII encoding
refuses bytes above 127, a numeric field holds an integer, and a padded field is unpadded
when it is read. -/

/-- Modelled from the spec: the ASCII hexadecimal digit of a value below 16, for
`BytesToASCIIHex` (§3).  The specification does not fix the letter case; upper case is
written and both cases are read. -/
def hexDigit (n : Nat) : Nat := if n < 10 then 48 + n else 55 + n

/-- Modelled from the spec: the value of an ASCII hexadecimal digit, `none` for any other
byte ("malformed hex digits fail with a DecodeError", §4.1). -/
def hexValue (c : Nat) : Option Nat :=
  if 48 ≤ c ∧ c ≤ 57 then some (c - 48)
  else if 65 ≤ c ∧ c ≤ 70 then some (c - 55)
  else if 97 ≤ c ∧ c ≤ 102 then some (c - 87)
  else none

/-- Modelled from the spec: binary bytes rendered as their hexadecimal digits in ASCII (§3). -/
def hexEncode : Bytes → Bytes
  | [] => []
  | b :: bs => hexDigit (b / 16) :: hexDigit (b % 16) :: hexEncode bs

/-- Modelled from the spec: hexadecimal digits in ASCII read back to binary bytes (§3, §4.1). -/
def hexDecode : Bytes → Option Bytes
  | [] => some []
  | [_] => none
  | a :: b :: rest =>
    match hexValue a, hexValue b, hexDecode rest with
    | some x, some y, some r => some ((16 * x + y) :: r)
    | _, _, _ => none

/-- No byte of the string is above 127. -/
def isASCII (v : Bytes) : Bool := v.all (fun b => decide (b ≤ 127))

/-- The package's `Encode` of the two encodings: `encoding.ASCII` passes the bytes through
and fails on a byte above 127; `encoding.BytesToASCIIHex` renders hexadecimal digits. -/
def Encoding.Encode : Encoding → Bytes → Option Bytes
  | Encoding.ascii, v => if isASCII v then some v else none
  | Encoding.bytesToASCIIHex, v => some (hexEncode v)

/-- The package's `Decode` of the two encodings on the bytes the prefix selected:
`encoding.ASCII` passes them through and fails on a byte above 127;
`encoding.BytesToASCIIHex` reads hexadecimal digits. -/
def Encoding.Decode : Encoding → Bytes → Option Bytes
  | Encoding.ascii, raw => if isASCII raw then some raw else none
  | Encoding.bytesToASCIIHex, raw => hexDecode raw

/-- Modelled from the spec: the value of an ASCII decimal digit, `none` for any other byte. -/
def digitValue (c : Nat) : Option Nat :=
  if 48 ≤ c ∧ c ≤ 57 then some (c - 48) else none

/-- Modelled from the spec: `Prefix.WriteLength` (§3, §4.1, §4.2) for a field of declared
length `fieldLength` and a payload of `len` bytes.  A fixed field writes no
prefix and its payload has exactly the declared length (for the hex-encoded fixed prefix
the declared length counts binary bytes, two digits each, as §4.2 says of the bitmap);
`LL` and `LLL` write 2 and 3 zero-padded decimal digits and fail beyond 99 and 999, and
beyond the declared length. -/
def Prefix.WriteLength : Prefix → Nat → Nat → Option Bytes
  | Prefix.asciiFixed, fieldLength, len => if len = fieldLength then some [] else none
  | Prefix.hexFixed, fieldLength, len => if len = 2 * fieldLength then some [] else none
  | Prefix.asciiLL, fieldLength, len =>
    if len ≤ fieldLength ∧ len ≤ 99 then some [48 + len / 10, 48 + len % 10] else none
  | Prefix.asciiLLL, fieldLength, len =>
    if len ≤ fieldLength ∧ len ≤ 999 then
      some [48 + len / 100, 48 + len / 10 % 10, 48 + len % 10]
    else none

/-- Modelled from the spec: `Prefix.ReadLength(cursor) → (length, bytesConsumed)` (§3, §4.1):
no bytes for a fixed field, 2 or 3 ASCII decimal digits for `LL` and `LLL`; non-digit
bytes and a parsed length above the declared length are errors. -/
def Prefix.ReadLength : Prefix → Nat → Bytes → Option (Nat × Nat)
  | Prefix.asciiFixed, fieldLength, _ => some (fieldLength, 0)
  | Prefix.hexFixed, fieldLength, _ => some (2 * fieldLength, 0)
  | Prefix.asciiLL, fieldLength, cursor =>
    match cursor with
    | a :: b :: _ =>
      match digitValue a, digitValue b with
      | some x, some y => if 10 * x + y ≤ fieldLength then some (10 * x + y, 2) else none
      | _, _ => none
    | _ => none
  | Prefix.asciiLLL, fieldLength, cursor =>
    match cursor with
    | a :: b :: c :: _ =>
      match digitValue a, digitValue b, digitValue c with
      | some x, some y, some z =>
        if 100 * x + 10 * y + z ≤ fieldLength then some (100 * x + 10 * y + z, 3) else none
      | _, _, _ => none
    | _ => none

/-- Modelled from the spec: left padding with byte `c` up to width `n` (§3). -/
def leftPad (c n : Nat) (v : Bytes) : Bytes := List.replicate (n - v.length) c ++ v

/-- The package's unpadding of a left-padded value: the leading pad bytes are removed. -/
def leftUnpad (c : Nat) (v : Bytes) : Bytes := v.dropWhile (fun b => b == c)

/-- The decimal digits of `n`, most significant first; `fuel` bounds the number of digits. -/
def decimalDigits : Nat → Nat → Bytes
  | 0, _ => []
  | fuel + 1, n => if n < 10 then [48 + n] else decimalDigits fuel (n / 10) ++ [48 + n % 10]

/-- Go's `strconv.Itoa`: the decimal rendering of an integer, "-" first when negative. -/
def Itoa (n : Int) : Bytes :=
  if n < 0 then 45 :: decimalDigits (n.natAbs + 1) n.natAbs
  else decimalDigits (n.natAbs + 1) n.natAbs

/-- The number written by a string of decimal digits, `none` when a byte is not a digit. -/
def digitsValue (s : Bytes) : Option Nat :=
  s.foldl (fun acc ch =>
    match acc, digitValue ch with
    | some n, some d => some (10 * n + d)
    | _, _ => none) (some 0)

/-- Go's `strconv.Atoi` on a 64-bit platform: an optional sign and at least one decimal
digit, with a value that fits a signed 64-bit integer; anything else is an error. -/
def Atoi (s : Bytes) : Option Int :=
  let signed : Option Int :=
    match s with
    | [] => none
    | 43 :: rest => if rest.isEmpty then none else (digitsValue rest).map Int.ofNat
    | 45 :: rest =>
      if rest.isEmpty then none else (digitsValue rest).map (fun n => - Int.ofNat n)
    | _ => (digitsValue s).map Int.ofNat
  match signed with
  | some n => if - 9223372036854775808 ≤ n ∧ n ≤ 9223372036854775807 then some n else none
  | none => none

/-- The integer a numeric field takes from raw bytes: 0 for no bytes, otherwise `Atoi`. -/
def numericValue (raw : Bytes) : Option Int :=
  if raw.isEmpty then some 0 else Atoi raw

/-- The package's packing of field data under a `field.Spec`: pad when a padding is
configured, encode, and prepend the length the prefix renders for the padded data. -/
def Spec.pack (s : Spec) (data : Bytes) : Option Bytes :=
  let padded :=
    match s.pad with
    | some c => leftPad c s.length data
    | none => data
  match s.enc.Encode padded, s.pref.WriteLength s.length padded.length with
  | some packed, some p => some (p ++ packed)
  | _, _ => none

/-- The package's unpacking under a `field.Spec`: resolve the length via the prefix, read
that many bytes (an error when too few remain), decode them, and unpad when a padding is
configured.  The result is the raw value and the number of bytes consumed. -/
def Spec.unpack (s : Spec) (cursor : Bytes) : Option (Bytes × Nat) :=
  match s.pref.ReadLength s.length cursor with
  | none => none
  | some (len, used) =>
    let payload := cursor.drop used
    if payload.length < len then none
    else
      match s.enc.Decode (payload.take len) with
      | none => none
      | some raw =>
        match s.pad with
        | some c => some (leftUnpad c raw, used + len)
        | none => some (raw, used + len)

/-- The `Pack` of a table entry for the value `v` the message holds under it.  A string
field packs its bytes.  A numeric field holds an integer, so what is packed is the
decimal rendering of the integer `v` denotes, without leading zeros.  The bitmap field
writes its bytes in the field's encoding. -/
def Field.Pack (f : Field) (v : Bytes) : Option Bytes :=
  match f.kind with
  | FieldKind.string => f.spec.pack v
  | FieldKind.numeric =>
    match numericValue v with
    | none => none
    | some n => f.spec.pack (Itoa n)
  | FieldKind.bitmap => f.spec.enc.Encode v

/-- The `Unpack` of a table entry at the cursor: the value the message then holds and the
number of bytes consumed.  A numeric field converts the raw bytes to an integer (an error
when they are not a number) and holds that integer, rendered here in decimal. -/
def Field.Unpack (f : Field) (cursor : Bytes) : Option (Bytes × Nat) :=
  match f.kind with
  | FieldKind.string => f.spec.unpack cursor
  | FieldKind.numeric =>
    match f.spec.unpack cursor with
    | none => none
    | some (raw, used) =>
      match numericValue raw with
      | none => none
      | some n => some (Itoa n, used)
  | FieldKind.bitmap => f.spec.unpack cursor

/-- Modelled from the spec: the bit of field `k` in the bitmap (§4.2): fields 2 to 64 only,
the bit of field 1 is always 0. -/
def presenceBit (present : Nat → Bool) (k : Nat) : Nat :=
  if 2 ≤ k ∧ k ≤ 64 ∧ present k = true then 1 else 0

/-- Modelled from the spec: `Render(set of field numbers) → bytes` (§4.2): 8 bytes, the bit
of field `k` is bit `k` counted from the most significant bit of byte 0 ("bit 1
representing field 1 itself"), which is also the numbering of the sample message in the
source comment on line 455, whose bitmap byte 0x02 at offset 4 marks field 39. -/
def Render (present : Nat → Bool) : Bytes :=
  (List.range 8).map (fun i =>
    128 * presenceBit present (8 * i + 1) + 64 * presenceBit present (8 * i + 2)
      + 32 * presenceBit present (8 * i + 3) + 16 * presenceBit present (8 * i + 4)
      + 8 * presenceBit present (8 * i + 5) + 4 * presenceBit present (8 * i + 6)
      + 2 * presenceBit present (8 * i + 7) + presenceBit present (8 * i + 8))

/-- Modelled from the spec: `BitsSet(bytes) → ordered sequence of field numbers 2..64` (§4.2). -/
def BitsSet (bitmap : Bytes) : List Nat :=
  (List.range' 2 63).filter (fun k =>
    decide (bitmap.getD ((k - 1) / 8) 0 / 2 ^ (7 - (k - 1) % 8) % 2 = 1))

/-- Modelled from the spec: step 3 of `Unpack` (§4.4): for each set field number in
ascending order, look it up, unpack it at the cursor, record it and advance.  The
message is returned as the failing step found it, with `true` for an error. -/
def unpackFields : List Nat → Bytes → Message → Message × Bool
  | [], _, m => (m, false)
  | n :: ns, cursor, m =>
    match fieldOf n with
    | none => (m, true)
    | some f =>
      match f.Unpack cursor with
      | none => (m, true)
      | some (v, used) => unpackFields ns (cursor.drop used) (m.set n v)

/-- Modelled from the spec: `Unpack(rawBytes, spec) → Message` (§4.4) on a fresh message:
field 0, then the bitmap, then the fields the bitmap lists; trailing bytes are ignored. -/
def Unpack (raw : Bytes) : Message × Bool :=
  match fieldOf 0, fieldOf 1 with
  | some f0, some f1 =>
    match f0.Unpack raw with
    | none => (NewMessage, true)
    | some (mti, used0) =>
      match f1.Unpack (raw.drop used0) with
      | none => (NewMessage.set 0 mti, true)
      | some (bitmap, used1) =>
        unpackFields (BitsSet bitmap) (raw.drop (used0 + used1)) (NewMessage.set 0 mti)
  | _, _ => (NewMessage, true)

/-- Modelled from the spec: the field part of `Pack` (§4.4): each present field number of
the list in order, packed via its table entry; a present field the table does not register
fails the whole operation. -/
def packFields : List Nat → Message → Option Bytes
  | [], _ => some []
  | n :: ns, m =>
    match m.fields n with
    | none => packFields ns m
    | some v =>
      match fieldOf n with
      | none => none
      | some f =>
        match f.Pack v, packFields ns m with
        | some p, some rest => some (p ++ rest)
        | _, _ => none

/-- Modelled from the spec: `Pack(message, spec) → rawBytes` (§4.4): field 0, the bitmap
recomputed from the presence set, then the present fields 2..127 in ascending order.
On failure no bytes are returned, with `true` for the error. -/
def Pack (m : Message) : Bytes × Bool :=
  match fieldOf 0, fieldOf 1 with
  | some f0, some f1 =>
    match f0.Pack m.GetMTI, f1.Pack (Render (fun k => (m.fields k).isSome)),
        packFields (List.range' 2 126) m with
    | some a, some b, some c => (a ++ b ++ c, false)
    | _, _, _ => ([], true)
  | _, _ => ([], true)

/-- The codec over the source's field table, as the handler's two entry points. -/
def specCodec : Codec := Codec.mk Unpack Pack

/-! ## Concrete inputs and auxiliary predicates -/

/-- A request body with MTI "0100" and an empty bitmap. -/
def request0100 : Bytes := [48, 49, 48, 48] ++ List.replicate 16 48

/-- A request body with MTI "0200", the bitmap "0020000002000000" (fields 11 and 39),
"000001" (field 11) and "05" (field 39). -/
def request0200 : Bytes :=
  mti0200 ++ [48, 48, 50, 48, 48, 48, 48, 48, 48, 50, 48, 48, 48, 48, 48, 48]
    ++ [48, 48, 48, 48, 48, 49] ++ [48, 53]

/-- The request body of scenario B: MTI "0200", the bitmap with exactly fields 3 and 11
set, then "000000" (field 3) and "000001" (field 11). -/
def scenarioB : Bytes :=
  mti0200 ++ hexEncode (Render (fun k => k == 3 || k == 11))
    ++ [48, 48, 48, 48, 48, 48] ++ [48, 48, 48, 48, 48, 49]

/-- The response body the specification gives for scenario B: "0210", the bitmap
"2020000002000000" (fields 3, 11 and 39), "000000", "000001", "00". -/
def scenarioBResponse : Bytes :=
  mti0210 ++ [50, 48, 50, 48, 48, 48, 48, 48, 48, 50, 48, 48, 48, 48, 48, 48]
    ++ [48, 48, 48, 48, 48, 48] ++ [48, 48, 48, 48, 48, 49] ++ rc00

/-- Capacity of a field for a logical value `v`: `v` encodes, and its encoded length is
exactly the declared length for a fixed field and at most the declared length for an LL
or LLL field. -/
def withinCapacity (f : Field) (v : Bytes) : Prop :=
  match f.spec.enc.Encode v with
  | none => False
  | some e =>
    if f.spec.pref.isFixed = true then e.length = f.spec.length else e.length ≤ f.spec.length

instance (f : Field) (v : Bytes) : Decidable (withinCapacity f v) := by
  unfold withinCapacity
  cases f.spec.enc.Encode v <;> infer_instance

/-- The value read back for a packed `v`: `v` itself, or `v` without its leading pad bytes
when the entry configures a left padding. -/
def Field.unpadded (f : Field) (v : Bytes) : Bytes :=
  match f.spec.pad with
  | some c => leftUnpad c v
  | none => v

/-- Consistency of a table entry: the ASCII fixed prefix goes with the ASCII encoding, the
hex fixed prefix with the hex encoding, and an LL or LLL field has no padding and a
declared length within what 2 or 3 decimal digits can express. -/
def Field.consistent (f : Field) : Bool :=
  match f.spec.pref with
  | Prefix.asciiFixed => decide (f.spec.enc = Encoding.ascii)
  | Prefix.hexFixed => decide (f.spec.enc = Encoding.bytesToASCIIHex)
  | Prefix.asciiLL => decide (f.spec.length ≤ 99 ∧ f.spec.pad = none)
  | Prefix.asciiLLL => decide (f.spec.length ≤ 999 ∧ f.spec.pad = none)

/-! ## The field table: counts and prefix schemes -/

/-- C10, as stated, fails: the table registers 67 field numbers, not 90. -/
theorem fieldNumbers_length_ne_90 : fieldNumbers.length = 67 ∧ fieldNumbers.length ≠ 90 := by
  decide

/-- C10, amended: the table registers exactly 67 field numbers, namely 0..64, 70 and 90,
without repetition and all at most 90; field 0 is the Message Type Indicator (fixed 4,
ASCII) and field 1 is the bitmap (fixed 8, hex as ASCII). -/
theorem fieldNumbers_eq :
    fieldNumbers.length = 67 ∧ fieldNumbers = List.range 65 ++ [70, 90] ∧
      fieldNumbers.Nodup ∧ fieldNumbers.all (fun n => decide (n ≤ 90)) = true ∧
      fieldOf 0 = some (NewString (Spec.mk 4 "Message Type Indicator" Encoding.ascii
        Prefix.asciiFixed none)) ∧
      fieldOf 1 = some (NewBitmap (Spec.mk 8 "Bitmap" Encoding.bytesToASCIIHex
        Prefix.hexFixed none)) := by
  refine ⟨by decide, by decide, by decide, by decide, rfl, rfl⟩

/-- C9, as stated, fails: fields 42 and 43 lie in the range 42..48 and are fixed-length
(15 and 40 bytes), not LL or LLL. -/
theorem field_42_43_fixed :
    (fieldOf 42).map (fun f => (f.spec.pref, f.spec.pref.isVariable, f.spec.length))
        = some (Prefix.asciiFixed, false, 15) ∧
      (fieldOf 43).map (fun f => (f.spec.pref, f.spec.pref.isVariable, f.spec.length))
        = some (Prefix.asciiFixed, false, 40) := by
  decide

/-- C9, amended: every field number in the ranges 32..36, 44..48 and 54..63 is registered
with an LL or LLL prefix and a maximum length of at most 999 bytes. -/
theorem variable_fields_LL_LLL (n : Nat)
    (h : (32 ≤ n ∧ n ≤ 36) ∨ (44 ≤ n ∧ n ≤ 48) ∨ (54 ≤ n ∧ n ≤ 63)) :
    ∃ f, fieldOf n = some f ∧ f.spec.pref.isVariable = true ∧ f.spec.length ≤ 999 := by
  rcases h with ⟨h1, h2⟩ | ⟨h1, h2⟩ | ⟨h1, h2⟩ <;> interval_cases n <;>
    exact ⟨_, rfl, rfl, by decide⟩

/-- Witness for `variable_fields_LL_LLL` at field 44. -/
theorem variable_fields_LL_LLL_witness :
    ((32 ≤ 44 ∧ 44 ≤ 36) ∨ (44 ≤ 44 ∧ 44 ≤ 48) ∨ (54 ≤ 44 ∧ 44 ≤ 63)) ∧
      ∃ f, fieldOf 44 = some f ∧ f.spec.pref.isVariable = true ∧ f.spec.length ≤ 999 :=
  ⟨by decide, variable_fields_LL_LLL 44 (by decide)⟩

/-! ## The response frame -/

/-- C1, evaluated: the header written before a response body counts two bytes more than
the body holds.  An empty body gets the header 0x00 0x02 and a body of 300 bytes gets
0x01 0x2E, where the claim has 0x00 0x00 and 0x01 0x2C. -/
theorem writeResponse_header_two_more :
    writeResponse [] = some [0, 2] ∧
      writeResponse (List.replicate 300 48) = some ([1, 46] ++ List.replicate 300 48) := by
  have key : ∀ b : Bytes, b.length = 300 → writeResponse b = some ([1, 46] ++ b) := by
    intro b hb
    simp [writeResponse, binaryWriteBigEndian, uint16, responseLength, hb]
  exact ⟨rfl, key _ (List.length_replicate 300 48)⟩

/-- The value of `writeResponse`: the two header bytes, then the body. -/
theorem writeResponse_some (response : Bytes) :
    writeResponse response = some (uint16 (responseLength response) / 256 % 256
      :: uint16 (responseLength response) % 256 :: response) := by
  simp [writeResponse, binaryWriteBigEndian]

/-! ## Reading a frame -/

/-- C5, evaluated: the connection delivers the header 0x00 0x14 (a body of 20 bytes) and
only the 4 body bytes "0800" before it closes.  `readFrame` does not fail: it returns a
20-byte body, "0800" followed by 16 zero bytes, which the handler goes on to unpack. -/
theorem readFrame_short_body :
    readFrame (Reader.mk [] [[0, 20, 48, 56, 48, 48]])
      = some ([48, 56, 48, 48] ++ List.replicate 16 0, Reader.mk [] []) := by
  decide

/-! ## The response rule -/

/-- Fields 0 and 39 are registered, so the handler's two setter calls succeed. -/
theorem fieldOf_0_39_isSome : (fieldOf 0).isSome = true ∧ (fieldOf 39).isSome = true := by
  decide

/-- The message the rule builds from `msg` when it sets response indicator `v`. -/
theorem response_fields (msg : Message) (v : Bytes) (n : Nat) :
    ((msg.MTI v).Field 39 rc00).fields n
      = if n = 39 then some rc00 else if n = 0 then some v else msg.fields n := by
  simp [Message.MTI, Message.Field, Message.set, fieldOf_0_39_isSome.1, fieldOf_0_39_isSome.2]

/-- C2: after a frame is read, a request MTI of "0800" gives a response message with MTI
"0810", "0200" gives "0210", and any other MTI gives no response message: the pass writes
nothing to the connection and the loop goes on with the next pass on the same reader. -/
theorem responseRule_mti (c : Codec) (r r2 : Reader) (body : Bytes)
    (hread : readFrame r = some (body, r2)) :
    ((c.Unpack body).1.GetMTI = mti0800 →
        ∃ m, responseRule (c.Unpack body).1 = some m ∧ m.GetMTI = mti0810) ∧
      ((c.Unpack body).1.GetMTI = mti0200 →
        ∃ m, responseRule (c.Unpack body).1 = some m ∧ m.GetMTI = mti0210) ∧
      ((c.Unpack body).1.GetMTI ≠ mti0800 → (c.Unpack body).1.GetMTI ≠ mti0200 →
        responseRule (c.Unpack body).1 = none ∧ handleCycle c r = Cycle.next r2 [] ∧
          ∀ fuel, handleConnection c (fuel + 1) r = handleConnection c fuel r2) := by
  refine ⟨?_, ?_, ?_⟩
  · intro h
    refine ⟨_, if_pos h, ?_⟩
    simp [Message.GetMTI, response_fields]
  · intro h
    have hne : mti0200 ≠ mti0800 := by decide
    refine ⟨((c.Unpack body).1.MTI mti0210).Field 39 rc00, ?_, ?_⟩
    · simp [responseRule, h, hne]
    · simp [Message.GetMTI, response_fields]
  · intro h8 h2
    have hnone : responseRule (c.Unpack body).1 = none := by simp [responseRule, h8, h2]
    have hcycle : handleCycle c r = Cycle.next r2 [] := by simp [handleCycle, hread, hnone]
    exact ⟨hnone, hcycle, fun fuel => by simp [handleConnection, hcycle]⟩

/-- Witness for `responseRule_mti`: a frame carrying `request0100` is read, no response
is written and the loop goes on. -/
theorem responseRule_mti_witness :
    readFrame (Reader.mk [] [[0, 20] ++ request0100]) = some (request0100, Reader.mk [] []) ∧
      (specCodec.Unpack request0100).1.GetMTI = [48, 49, 48, 48] ∧
      handleCycle specCodec (Reader.mk [] [[0, 20] ++ request0100])
        = Cycle.next (Reader.mk [] []) [] :=
  ⟨by decide, by decide,
    ((responseRule_mti specCodec (Reader.mk [] [[0, 20] ++ request0100]) (Reader.mk [] [])
      request0100 (by decide)).2.2 (by decide) (by decide)).2.1⟩

/-- C3: after a frame is read whose request message has MTI "0800" or "0200", the handler
writes a header followed by the bytes `Pack` returns for the message the response rule
built, and that message has field 39 equal to "00" and every field number other than 0
and 39 present exactly when it was present in the request, with the same value. -/
theorem responseRule_field39 (c : Codec) (r r2 : Reader) (body : Bytes)
    (hread : readFrame r = some (body, r2))
    (h : (c.Unpack body).1.GetMTI = mti0800 ∨ (c.Unpack body).1.GetMTI = mti0200) :
    ∃ m h0 h1, responseRule (c.Unpack body).1 = some m ∧
      handleCycle c r = Cycle.next r2 (h0 :: h1 :: (c.Pack m).1) ∧
      m.GetField 39 = some rc00 ∧
      ∀ n, n ≠ 0 → n ≠ 39 → m.GetField n = (c.Unpack body).1.GetField n := by
  have hne : mti0200 ≠ mti0800 := by decide
  have hrule : ∃ v, responseRule (c.Unpack body).1
      = some (((c.Unpack body).1.MTI v).Field 39 rc00) := by
    rcases h with h | h
    · exact ⟨mti0810, if_pos h⟩
    · exact ⟨mti0210, by simp [responseRule, h, hne]⟩
  obtain ⟨v, hv⟩ := hrule
  refine ⟨((c.Unpack body).1.MTI v).Field 39 rc00,
    uint16 (responseLength (c.Pack (((c.Unpack body).1.MTI v).Field 39 rc00)).1) / 256 % 256,
    uint16 (responseLength (c.Pack (((c.Unpack body).1.MTI v).Field 39 rc00)).1) % 256,
    hv, ?_, ?_, ?_⟩
  · simp [handleCycle, hread, hv, writeResponse_some]
  · simp [Message.GetField, response_fields]
  · intro n h0 h39
    simp [Message.GetField, response_fields, h0, h39]

/-- Witness for `responseRule_field39`: the framed `request0200` carries field 39 = "05",
which the response overwrites. -/
theorem responseRule_field39_witness :
    readFrame (Reader.mk [] [[0, 28] ++ request0200]) = some (request0200, Reader.mk [] []) ∧
      (specCodec.Unpack request0200).1.GetField 39 = some [48, 53] ∧
      ∃ m h0 h1, responseRule (specCodec.Unpack request0200).1 = some m ∧
        handleCycle specCodec (Reader.mk [] [[0, 28] ++ request0200])
          = Cycle.next (Reader.mk [] []) (h0 :: h1 :: (specCodec.Pack m).1) ∧
        m.GetField 39 = some rc00 ∧
        ∀ n, n ≠ 0 → n ≠ 39 →
          m.GetField n = (specCodec.Unpack request0200).1.GetField n :=
  ⟨by decide, by decide,
    responseRule_field39 specCodec (Reader.mk [] [[0, 28] ++ request0200]) (Reader.mk [] [])
      request0200 (by decide) (Or.inr (by decide))⟩

/-! ## Codec errors in the handler -/

/-- C4, as stated, fails: the frame body "0800" is too short for a bitmap, so `Unpack`
returns an error; the handler still applies the response rule, writes a response frame
and goes on to the next pass. -/
theorem handleCycle_unpack_error :
    readFrame (Reader.mk [] [[0, 4, 48, 56, 48, 48]]) = some (mti0800, Reader.mk [] []) ∧
      (specCodec.Unpack mti0800).2 = true ∧
      handleCycle specCodec (Reader.mk [] [[0, 4, 48, 56, 48, 48]])
        = Cycle.next (Reader.mk [] [])
            ([0, 24] ++ mti0810 ++ [48, 48, 48, 48, 48, 48, 48, 48, 48, 50, 48, 48, 48, 48, 48, 48]
              ++ rc00) := by
  refine ⟨by decide, by decide, ?_⟩
  rfl

/-- C4, amended: the error results of `Unpack` and `Pack` are dropped.  Whenever the
header and body reads succeed, the pass does not end the loop, whatever the two calls
report: the response rule is applied to the message as `Unpack` left it, and either no
response is written (unrecognised MTI) or a 2-byte header followed by the bytes `Pack`
returned is written. -/
theorem handleCycle_drops_codec_errors (c : Codec) (r r2 : Reader) (body : Bytes)
    (hread : readFrame r = some (body, r2)) :
    (responseRule (c.Unpack body).1 = none ∧ handleCycle c r = Cycle.next r2 []) ∨
      ∃ m h0 h1, responseRule (c.Unpack body).1 = some m ∧
        handleCycle c r = Cycle.next r2 (h0 :: h1 :: (c.Pack m).1) := by
  cases hrule : responseRule (c.Unpack body).1 with
  | none => exact Or.inl ⟨rfl, by simp [handleCycle, hread, hrule]⟩
  | some m =>
    refine Or.inr ⟨m, uint16 (responseLength (c.Pack m).1) / 256 % 256,
      uint16 (responseLength (c.Pack m).1) % 256, rfl, ?_⟩
    simp [handleCycle, hread, hrule, writeResponse_some (c.Pack m).1]

/-- Witness for `handleCycle_drops_codec_errors` at a frame whose body fails to unpack. -/
theorem handleCycle_drops_codec_errors_witness :
    readFrame (Reader.mk [] [[0, 4, 48, 56, 48, 48]]) = some (mti0800, Reader.mk [] []) ∧
      (specCodec.Unpack mti0800).2 = true ∧
      ((responseRule (specCodec.Unpack mti0800).1 = none ∧
          handleCycle specCodec (Reader.mk [] [[0, 4, 48, 56, 48, 48]])
            = Cycle.next (Reader.mk [] []) []) ∨
        ∃ m h0 h1, responseRule (specCodec.Unpack mti0800).1 = some m ∧
          handleCycle specCodec (Reader.mk [] [[0, 4, 48, 56, 48, 48]])
            = Cycle.next (Reader.mk [] []) (h0 :: h1 :: (specCodec.Pack m).1)) :=
  ⟨by decide, by decide,
    handleCycle_drops_codec_errors specCodec (Reader.mk [] [[0, 4, 48, 56, 48, 48]])
      (Reader.mk [] []) mti0800 (by decide)⟩

/-! ## End-to-end scenario B -/

/-- C7, evaluated: the request body of scenario B unpacks without error, and field 3, a
numeric field, then holds the integer 0 where the request had "000000".  `Pack` of the
response message fails, since "0" is not 6 bytes long and field 3 has no padding, so
the handler writes the header 0x00 0x02 and no body, where the claim has the 34-byte
`scenarioBResponse`. -/
theorem scenarioB_pack_fails :
    BitsSet (Render (fun k => k == 3 || k == 11)) = [3, 11] ∧
      (Unpack scenarioB).2 = false ∧
      (Unpack scenarioB).1.GetMTI = mti0200 ∧
      (Unpack scenarioB).1.GetField 3 = some [48] ∧
      (Unpack scenarioB).1.GetField 11 = some [48, 48, 48, 48, 48, 49] ∧
      (fieldOf 3).bind (fun f => f.Pack [48]) = none ∧
      (responseRule (Unpack scenarioB).1).map Pack = some ([], true) ∧
      handleCycle specCodec (Reader.mk [] [[0, 32] ++ scenarioB])
        = Cycle.next (Reader.mk [] []) [0, 2] ∧
      scenarioBResponse.length = 34 := by
  refine ⟨by decide, by decide, by decide, by decide, by decide, by decide, by decide, ?_,
    by decide⟩
  rfl

/-! ## Field round trip -/

/-- A successful lookup returns an entry of the list. -/
theorem lookup_mem {β : Type} (l : List (Nat × β)) (n : Nat) (x : β)
    (h : l.lookup n = some x) : (n, x) ∈ l := by
  induction l with
  | nil => simp at h
  | cons hd tl ih =>
    obtain ⟨k, y⟩ := hd
    by_cases hk : n = k
    · subst hk
      simp [List.lookup] at h
      simp [h]
    · have hb : (n == k) = false := by simpa using hk
      simp [List.lookup, hb] at h
      exact List.mem_cons_of_mem _ (ih h)

/-- Every entry of the table is consistent. -/
theorem specFields_consistent (n : Nat) (f : Field) (hf : fieldOf n = some f) :
    f.consistent = true := by
  have hall : ∀ x ∈ specFields, x.2.consistent = true := by decide
  exact hall (n, f) (lookup_mem specFields n f hf)

/-- Reading back a decimal digit. -/
theorem digitValue_digit (d : Nat) (h : d < 10) : digitValue (48 + d) = some d := by
  interval_cases d <;> rfl

/-- The entries that are not built by `field.NewString` with the ASCII encoding are the
bitmap (1), the numeric field 3 and the hex-encoded field 64. -/
theorem not_ascii_string_fields :
    (specFields.filter (fun x =>
        !(decide (x.2.kind = FieldKind.string ∧ x.2.spec.enc = Encoding.ascii)))).map Prod.fst
      = [1, 3, 64] := by
  decide

/-- C8, as stated, fails.  Field 4 (fixed 12, padded with '0'): the value "000000001000"
is within capacity and packs to the same 12 bytes, but unpacking them gives "1000".
Field 64 (fixed 8, hex as ASCII): a 4-byte value has the encoded length 8, but packing
and then unpacking it does not succeed. -/
theorem field_round_trip_fails :
    (fieldOf 4).map (fun f => decide (withinCapacity f
        [48, 48, 48, 48, 48, 48, 48, 48, 49, 48, 48, 48])) = some true ∧
      (fieldOf 4).bind (fun f => f.Pack [48, 48, 48, 48, 48, 48, 48, 48, 49, 48, 48, 48])
        = some [48, 48, 48, 48, 48, 48, 48, 48, 49, 48, 48, 48] ∧
      (fieldOf 4).bind (fun f => f.Unpack [48, 48, 48, 48, 48, 48, 48, 48, 49, 48, 48, 48])
        = some ([49, 48, 48, 48], 12) ∧
      (fieldOf 64).map (fun f => decide (withinCapacity f [1, 35, 69, 103])) = some true ∧
      (fieldOf 64).bind (fun f => (f.Pack [1, 35, 69, 103]).bind f.Unpack) = none := by
  decide

/-- C8, amended: for every field number the table registers with `field.NewString` and the
ASCII encoding, and every value `v` within the field's capacity, packing `v` succeeds, and
unpacking the packed bytes, whatever follows them, consumes exactly the packed bytes and
gives back `v`, without its leading pad bytes when the field is padded (fields 4, 5, 6). -/
theorem field_round_trip (n : Nat) (f : Field) (v rest : Bytes)
    (hf : fieldOf n = some f) (hkind : f.kind = FieldKind.string)
    (henc : f.spec.enc = Encoding.ascii) (hcap : withinCapacity f v) :
    ∃ p, f.Pack v = some p ∧ f.Unpack (p ++ rest) = some (f.unpadded v, p.length) := by
  have hc := specFields_consistent n f hf
  obtain ⟨kind, ⟨len, desc, enc, pref, pad⟩⟩ := f
  simp only at hkind henc
  subst hkind henc
  have hv : isASCII v = true := by
    by_contra hv
    simp [withinCapacity, Encoding.Encode, hv] at hcap
  cases pref with
  | asciiFixed =>
    simp [withinCapacity, Encoding.Encode, hv, Prefix.isFixed] at hcap
    refine ⟨v, ?_, ?_⟩
    · cases pad <;>
        simp [Field.Pack, Spec.pack, Encoding.Encode, Prefix.WriteLength, leftPad, hcap, hv]
    · cases pad <;>
        simp [Field.Unpack, Spec.unpack, Prefix.ReadLength, Encoding.Decode, Field.unpadded,
          ← hcap, hv]
  | hexFixed => simp [Field.consistent] at hc
  | asciiLL =>
    simp [Field.consistent] at hc
    obtain ⟨hc, hpad⟩ := hc
    subst hpad
    simp [withinCapacity, Encoding.Encode, hv, Prefix.isFixed] at hcap
    have h99 : v.length ≤ 99 := le_trans hcap hc
    have hd1 := digitValue_digit (v.length / 10) (by omega)
    have hd2 := digitValue_digit (v.length % 10) (by omega)
    have hsum : 10 * (v.length / 10) + v.length % 10 = v.length := by omega
    refine ⟨[48 + v.length / 10, 48 + v.length % 10] ++ v, ?_, ?_⟩
    · simp [Field.Pack, Spec.pack, Encoding.Encode, Prefix.WriteLength, hcap, h99, hv]
    · simp [Field.Unpack, Spec.unpack, Prefix.ReadLength, Encoding.Decode, Field.unpadded,
        hd1, hd2, hsum, hcap, hv]
      omega
  | asciiLLL =>
    simp [Field.consistent] at hc
    obtain ⟨hc, hpad⟩ := hc
    subst hpad
    simp [withinCapacity, Encoding.Encode, hv, Prefix.isFixed] at hcap
    have h999 : v.length ≤ 999 := le_trans hcap hc
    have hd1 := digitValue_digit (v.length / 100) (by omega)
    have hd2 := digitValue_digit (v.length / 10 % 10) (by omega)
    have hd3 := digitValue_digit (v.length % 10) (by omega)
    have hsum : 100 * (v.length / 100) + 10 * (v.length / 10 % 10) + v.length % 10
        = v.length := by omega
    refine ⟨[48 + v.length / 100, 48 + v.length / 10 % 10, 48 + v.length % 10] ++ v, ?_, ?_⟩
    · simp [Field.Pack, Spec.pack, Encoding.Encode, Prefix.WriteLength, hcap, h999, hv]
    · simp [Field.Unpack, Spec.unpack, Prefix.ReadLength, Encoding.Decode, Field.unpadded,
        hd1, hd2, hd3, hsum, hcap, hv]
      omega

/-- Witness for `field_round_trip` at field 2 (LL, at most 19) with the 16-byte value
"4111111111111111" followed by one more byte on the wire. -/
theorem field_round_trip_witness :
    fieldOf 2 = some (NewString (Spec.mk 19 "Primary Account Number" Encoding.ascii
        Prefix.asciiLL none)) ∧
      withinCapacity (NewString (Spec.mk 19 "Primary Account Number" Encoding.ascii
        Prefix.asciiLL none)) [52, 49, 49, 49, 49, 49, 49, 49, 49, 49, 49, 49, 49, 49, 49, 49] ∧
      ∃ p, (NewString (Spec.mk 19 "Primary Account Number" Encoding.ascii
          Prefix.asciiLL none)).Pack
            [52, 49, 49, 49, 49, 49, 49, 49, 49, 49, 49, 49, 49, 49, 49, 49] = some p ∧
        (NewString (Spec.mk 19 "Primary Account Number" Encoding.ascii
          Prefix.asciiLL none)).Unpack (p ++ [48])
            = some ((NewString (Spec.mk 19 "Primary Account Number" Encoding.ascii
                Prefix.asciiLL none)).unpadded
              [52, 49, 49, 49, 49, 49, 49, 49, 49, 49, 49, 49, 49, 49, 49, 49], p.length) :=
  ⟨rfl, by decide,
    field_round_trip 2 _ [52, 49, 49, 49, 49, 49, 49, 49, 49, 49, 49, 49, 49, 49, 49, 49] [48]
      rfl rfl rfl (by decide)⟩

end Iso8583
